import Mathlib

/-!
Shallow embedding of the ring-buffer component of this repository
(`src/lab1b/CircularBuffer.h`, `template <typename T> class CircularBuffer`),
instantiated where element values matter at `T = int` (modelled as `Int`).

Modelling conventions:
* C++ `int` is modelled as `Int` (the concrete runs stay far below 2^31, so
  no overflow reduction is needed; all index arithmetic uses the C++
  truncated `%`, `Int.tmod`).
* `new T[n]` yields storage whose slots hold unspecified values; the model
  fills them with `default`.  Counterexamples below are chosen so that they
  do not depend on this choice wherever possible.
* An out-of-bounds array access (including any access through a negative
  index, which the C++ code can produce because the empty-buffer sentinel is
  `start = end = -1`) is undefined behaviour; the model marks it with a
  dedicated `ub` result (for reads through `Option`, `none`).
* A C++ `throw` is modelled by the `thrown` constructor, carrying the error
  kind and the state of the object at the moment of the throw (the object
  survives the exception, so that state is observable to the caller).
* Error kinds follow the specification's taxonomy; the comment on each
  operation records the concrete C++ exception type it stands for.
-/

set_option autoImplicit false

deriving instance DecidableEq for Except

/-- Error taxonomy of the specification.  Mapping to the C++ exception types
thrown by `CircularBuffer.h`: `InvalidCapacity` = `std::invalid_argument`,
`InvalidSize` = `std::out_of_range("Invalid new size")`, `IndexOutOfRange` =
`std::out_of_range`, `BufferFull` = `std::overflow_error`, `BufferEmpty` =
`std::underflow_error`. -/
inductive Err where
  | InvalidCapacity
  | InvalidSize
  | IndexOutOfRange
  | BufferFull
  | BufferEmpty
  deriving DecidableEq, Repr

/-- Result of running a (possibly mutating) member function on a
`CircularBuffer`: normal completion with the new state, an exception
(`thrown e s`: error kind `e`, object left in state `s`), or undefined
behaviour (`ub`, an out-of-bounds storage access). -/
inductive CppRes (σ : Type) where
  | ok : σ → CppRes σ
  | thrown : Err → σ → CppRes σ
  | ub : CppRes σ
  deriving DecidableEq, Repr

/-- C++ `%` on `int`: truncated modulo (sign of the dividend), `Int.tmod`. -/
def cmod (a b : Int) : Int :=
  Int.tmod a b

/-- Read `buf[i]` for a C++ `int` index `i`: out of bounds (negative or too
large) is undefined behaviour, modelled as `none`. -/
def readSlot {α : Type} (buf : Array α) (i : Int) : Option α :=
  if 0 ≤ i then buf[i.toNat]? else none

/-- Write `buf[i] = v` for a C++ `int` index `i`: out of bounds is undefined
behaviour, modelled as `none`. -/
def writeSlot {α : Type} (buf : Array α) (i : Int) (v : α) : Option (Array α) :=
  if 0 ≤ i ∧ i < (buf.size : Int) then some (buf.setD i.toNat v) else none

/-- State of `CircularBuffer<T>`: fields `capacity`, `size`, `buffer`,
`start`, `end` of the C++ class (`end` is a Lean keyword, hence `endIdx`).
The null storage pointer of a default-constructed buffer is modelled by the
empty array. -/
structure CircularBuffer (α : Type) where
  capacity : Int
  size : Int
  buffer : Array α
  start : Int
  endIdx : Int
  deriving DecidableEq, Repr

namespace CircularBuffer

variable {α : Type}

/-- `CircularBuffer()` : capacity 0, size 0, null storage, `start = end = -1`. -/
def defaultCB (α : Type) : CircularBuffer α :=
  ⟨0, 0, #[], -1, -1⟩

/-- `CircularBuffer(int capacity)` : throws `std::invalid_argument`
("Capacity must be greater than 0") when `capacity <= 0`; otherwise
allocates `new T[capacity]` (unspecified slot values, modelled as
`default`) with `size = 0`, `start = end = -1`.  A throwing constructor
produces no object, hence the `Except` result. -/
def mkCB (α : Type) [Inhabited α] (capacity : Int) : Except Err (CircularBuffer α) :=
  if capacity ≤ 0 then .error .InvalidCapacity
  else .ok ⟨capacity, 0, Array.mkArray capacity.toNat default, -1, -1⟩

/-- `CircularBuffer(int capacity, const T & elem)` : delegates to
`CircularBuffer(capacity)`, then fills every slot with `elem` and sets
`size = capacity`, `start = 0`, `end = size - 1`. -/
def mkFilled (α : Type) [Inhabited α] (capacity : Int) (elem : α) :
    Except Err (CircularBuffer α) :=
  if capacity ≤ 0 then .error .InvalidCapacity
  else .ok ⟨capacity, capacity, Array.mkArray capacity.toNat elem, 0, capacity - 1⟩

/-- `get_size()` : returns `size`. -/
def get_size (cb : CircularBuffer α) : Int :=
  cb.size

/-- `get_capacity()` : returns `capacity`. -/
def get_capacity (cb : CircularBuffer α) : Int :=
  cb.capacity

/-- `empty()` : `size == 0`. -/
def empty (cb : CircularBuffer α) : Bool :=
  cb.size == 0

/-- `full()` : `size == capacity`. -/
def full (cb : CircularBuffer α) : Bool :=
  cb.size == cb.capacity

/-- `reserve()` : `capacity - size`. -/
def reserve (cb : CircularBuffer α) : Int :=
  cb.capacity - cb.size

/-- `operator[](int i)` : unchecked access `buffer[(start + i) % capacity]`. -/
def getAt (cb : CircularBuffer α) (i : Int) : Option α :=
  readSlot cb.buffer (cmod (cb.start + i) cb.capacity)

/-- `front()` : `return buffer[start];` — no emptiness check in the source;
on an empty buffer `start` may be `-1` and the read is out of bounds. -/
def front (cb : CircularBuffer α) : Option α :=
  readSlot cb.buffer cb.start

/-- `back()` : `return buffer[end];` — no emptiness check in the source. -/
def back (cb : CircularBuffer α) : Option α :=
  readSlot cb.buffer cb.endIdx

/-- `push_back(item)` : throws `BufferFull` when `full()`; otherwise
`end = (end + 1) % capacity; buffer[end] = item; if (size == 0) start = 0;
size++;`. -/
def push_back (x : α) (cb : CircularBuffer α) : CppRes (CircularBuffer α) :=
  if cb.size = cb.capacity then .thrown .BufferFull cb
  else
    match writeSlot cb.buffer (cmod (cb.endIdx + 1) cb.capacity) x with
    | none => .ub
    | some buf =>
      .ok { cb with
            buffer := buf
            endIdx := cmod (cb.endIdx + 1) cb.capacity
            start := if cb.size = 0 then 0 else cb.start
            size := cb.size + 1 }

/-- `push_front(item)` : throws `BufferFull` when `full()`; otherwise
`start = (start - 1 + capacity) % capacity; buffer[start] = item;
if (size == 0) start = 0; size++;`.  Note that the source resets `start`
to 0 AFTER having written the item at the decremented position, and never
touches `end`. -/
def push_front (x : α) (cb : CircularBuffer α) : CppRes (CircularBuffer α) :=
  if cb.size = cb.capacity then .thrown .BufferFull cb
  else
    match writeSlot cb.buffer (cmod (cb.start - 1 + cb.capacity) cb.capacity) x with
    | none => .ub
    | some buf =>
      .ok { cb with
            buffer := buf
            start := if cb.size = 0 then 0 else cmod (cb.start - 1 + cb.capacity) cb.capacity
            size := cb.size + 1 }

/-- `pop_back()` : throws `BufferEmpty` when `empty()`; otherwise
`end = (end - 1 + capacity) % capacity; size--;` and, when the size reaches
0, the source's comma expression `start, end = -1, -1;` assigns ONLY
`end = -1` (the mention of `start` is a discarded expression). -/
def pop_back (cb : CircularBuffer α) : CppRes (CircularBuffer α) :=
  if cb.size = 0 then .thrown .BufferEmpty cb
  else if cb.size - 1 = 0 then .ok { cb with endIdx := -1, size := cb.size - 1 }
  else
    .ok { cb with
          endIdx := cmod (cb.endIdx - 1 + cb.capacity) cb.capacity
          size := cb.size - 1 }

/-- `pop_front()` : throws `BufferEmpty` when `empty()`; otherwise
`start = (start + 1) % capacity; size--;` and, when the size reaches 0, the
comma expression assigns only `end = -1` (`start` keeps its incremented
value). -/
def pop_front (cb : CircularBuffer α) : CppRes (CircularBuffer α) :=
  if cb.size = 0 then .thrown .BufferEmpty cb
  else if cb.size - 1 = 0 then
    .ok { cb with
          start := cmod (cb.start + 1) cb.capacity
          size := cb.size - 1
          endIdx := -1 }
  else
    .ok { cb with
          start := cmod (cb.start + 1) cb.capacity
          size := cb.size - 1 }

/-- The logical sequence of a buffer: the element at logical index `i`
(`0 ≤ i < size`) lives at physical slot `(start + i) % capacity`; `none`
marks a slot the code would read out of bounds. -/
def logicalSeq (cb : CircularBuffer α) : List (Option α) :=
  (List.range cb.size.toNat).map (fun i => getAt cb (Int.ofNat i))

/-- The shifting loop of `insert`: `for (i = size - 1; i >= pos; --i)
buffer[(start + i + 1) % capacity] = buffer[(start + i) % capacity];`.
The fuel `n` counts the remaining iterations; the call with fuel `n + 1`
handles `i = pos + n`, so iterations run from `i = size - 1` downward,
exactly as in the source. -/
def shiftUp (start cap pos : Int) : Nat → Array α → Option (Array α)
  | 0, buf => some buf
  | n + 1, buf =>
    match readSlot buf (cmod (start + (pos + n)) cap) with
    | none => none
    | some v =>
      match writeSlot buf (cmod (start + (pos + n) + 1) cap) v with
      | none => none
      | some buf2 => shiftUp start cap pos n buf2

/-- `insert(pos, item)` : throws `IndexOutOfRange` when
`pos < 0 || pos > size`, then `BufferFull` when `full()`; otherwise shifts
`[pos, size)` one slot toward the back, writes the item at
`buffer[(start + pos) % capacity]` and increments `size` (the source never
updates `end`). -/
def insert (pos : Int) (x : α) (cb : CircularBuffer α) : CppRes (CircularBuffer α) :=
  if pos < 0 ∨ pos > cb.size then .thrown .IndexOutOfRange cb
  else if cb.size = cb.capacity then .thrown .BufferFull cb
  else
    match shiftUp cb.start cb.capacity pos (cb.size - pos).toNat cb.buffer with
    | none => .ub
    | some buf =>
      match writeSlot buf (cmod (cb.start + pos) cb.capacity) x with
      | none => .ub
      | some buf2 => .ok { cb with buffer := buf2, size := cb.size + 1 }

/-- The shifting loop of `erase`: `for (i = last + 1; i < size; ++i)
buffer[(start + i - (last - first + 1)) % capacity] =
buffer[(start + i) % capacity];`, run with the current index `i` explicit
and the fuel counting remaining iterations (ascending order, as in the
source). -/
def shiftDown (start cap k : Int) : Int → Nat → Array α → Option (Array α)
  | _, 0, buf => some buf
  | i, n + 1, buf =>
    match readSlot buf (cmod (start + i) cap) with
    | none => none
    | some v =>
      match writeSlot buf (cmod (start + i - k) cap) v with
      | none => none
      | some buf2 => shiftDown start cap k (i + 1) n buf2

/-- `erase(first, last)` : throws `IndexOutOfRange` when
`first < 0 || last >= size || first > last`; otherwise closes the gap with
the ascending shift loop, then `size -= (last - first + 1);
end = (end - (last - first + 1) + capacity) % capacity;`. -/
def erase (first last : Int) (cb : CircularBuffer α) : CppRes (CircularBuffer α) :=
  if first < 0 ∨ last ≥ cb.size ∨ first > last then .thrown .IndexOutOfRange cb
  else
    match shiftDown cb.start cb.capacity (last - first + 1) (last + 1)
        (cb.size - (last + 1)).toNat cb.buffer with
    | none => .ub
    | some buf =>
      .ok { cb with
            buffer := buf
            size := cb.size - (last - first + 1)
            endIdx := cmod (cb.endIdx - (last - first + 1) + cb.capacity) cb.capacity }

/-- The copying loop of `rotate` (and of `linearize`):
`for (i = 0; i < size; ++i) new_buffer[i] = buffer[(start + i) % capacity];`
with the current index explicit and fuel counting remaining iterations. -/
def copyOut (src : Array α) (start cap : Int) : Int → Nat → Array α → Option (Array α)
  | _, 0, dst => some dst
  | i, n + 1, dst =>
    match readSlot src (cmod (start + i) cap) with
    | none => none
    | some v =>
      match writeSlot dst i v with
      | none => none
      | some dst2 => copyOut src start cap (i + 1) n dst2

/-- `rotate(new_begin)` : throws `IndexOutOfRange` when
`new_begin < 0 || new_begin >= size`; returns unchanged when
`new_begin == start` (a logical position compared against a physical
index).  Otherwise the source computes `distance = new_begin - start`
(adjusted by `size` if negative) but NEVER USES IT: it allocates
`new T[capacity]`, copies the elements in their current logical order
(`new_buffer[i] = buffer[(start + i) % capacity]`) and sets `start = 0`,
`end = size - 1`, i.e. it linearizes without rotating. -/
def rotate [Inhabited α] (new_begin : Int) (cb : CircularBuffer α) :
    CppRes (CircularBuffer α) :=
  if new_begin < 0 ∨ new_begin ≥ cb.size then .thrown .IndexOutOfRange cb
  else if new_begin = cb.start then .ok cb
  else
    match copyOut cb.buffer cb.start cb.capacity 0 cb.size.toNat
        (Array.mkArray cb.capacity.toNat default) with
    | none => .ub
    | some buf => .ok { cb with buffer := buf, start := 0, endIdx := cb.size - 1 }

/-- `clear()` : `size = 0; start = 0; end = 0;` (storage retained). -/
def clear (cb : CircularBuffer α) : CircularBuffer α :=
  { cb with size := 0, start := 0, endIdx := 0 }

/-- `swap(cb)` : the source exchanges ONLY the storage pointers
(`T* temp = this->buffer; this->buffer = cb.buffer; cb.buffer = temp;`);
`capacity`, `size`, `start` and `end` stay with their original objects. -/
def swap (a b : CircularBuffer α) : CircularBuffer α × CircularBuffer α :=
  ({ a with buffer := b.buffer }, { b with buffer := a.buffer })

/-- Model of the storage returned by a successful
`realloc(buffer, new_capacity)`.  The real call passes `new_capacity` as a
BYTE count and reinterprets the raw bytes of a `new[]`-allocated block
(itself undefined behaviour for non-trivial `T`); the model charitably
keeps the first `min(old, new)` slots as slots and fills the rest with
unspecified (`default`) values.  Nothing proved below about failure paths
depends on this choice. -/
def reallocModel [Inhabited α] (buf : Array α) (n : Nat) : Array α :=
  (Array.range n).map (fun i => (buf[i]?).getD default)

/-- `set_capacity(new_capacity)` : throws `InvalidCapacity`
(`std::invalid_argument`) when `new_capacity <= 0`; otherwise executes
`capacity = new_capacity; buffer = realloc(buffer, new_capacity);
if (buffer == nullptr) throw std::out_of_range(...);`.  Whether `realloc`
succeeds is not determined by the arguments, so the model takes it as the
explicit parameter `reallocOk`; on failure the throw happens AFTER
`capacity` has been overwritten and with the storage pointer null
(modelled as the empty array).  `size`, `start`, `end` are never updated,
and no element-wise copy is performed. -/
def set_capacity [Inhabited α] (new_capacity : Int) (reallocOk : Bool)
    (cb : CircularBuffer α) : CppRes (CircularBuffer α) :=
  if new_capacity ≤ 0 then .thrown .InvalidCapacity cb
  else if reallocOk then
    .ok { cb with
          capacity := new_capacity
          buffer := reallocModel cb.buffer new_capacity.toNat }
  else .thrown .IndexOutOfRange { cb with capacity := new_capacity, buffer := #[] }

/-- The growing loop of `resize`: `for (i = size; i < new_size; ++i)
push_back(item);`, fuel counting remaining iterations. -/
def pushLoop (x : α) : Nat → CircularBuffer α → CppRes (CircularBuffer α)
  | 0, cb => .ok cb
  | n + 1, cb =>
    match push_back x cb with
    | .ok cb2 => pushLoop x n cb2
    | .thrown e s => .thrown e s
    | .ub => .ub

/-- The shrinking loop of `resize`: `for (i = size - 1; i >= new_size; --i)
pop_back();`, fuel counting remaining iterations. -/
def popLoop : Nat → CircularBuffer α → CppRes (CircularBuffer α)
  | 0, cb => .ok cb
  | n + 1, cb =>
    match pop_back cb with
    | .ok cb2 => popLoop n cb2
    | .thrown e s => .thrown e s
    | .ub => .ub

/-- `resize(new_size, item)` : throws `InvalidSize`
(`std::out_of_range("Invalid new size")`) when
`new_size < 0 || new_size > capacity`; otherwise pushes `new_size - size`
copies of `item` at the back, or pops `size - new_size` elements. -/
def resize (new_size : Int) (x : α) (cb : CircularBuffer α) :
    CppRes (CircularBuffer α) :=
  if new_size < 0 ∨ new_size > cb.capacity then .thrown .InvalidSize cb
  else if cb.size < new_size then pushLoop x (new_size - cb.size).toNat cb
  else if new_size < cb.size then popLoop (cb.size - new_size).toNat cb
  else .ok cb

/-- The comparison loop of `operator==` (instantiated at `T = int`, the
only instantiation the repository uses; the expression only compiles for
integral `T` because the FRONT ELEMENT'S VALUE is used as an index):
`for (i = 0; i < a.get_size(); ++i)
  if (a[(a.front() + i) % a.get_capacity()] !=
      b[(b.front() + i) % b.get_capacity()]) return false;`. -/
def eqLoop (a b : CircularBuffer Int) : Int → Nat → Option Bool
  | _, 0 => some true
  | i, n + 1 =>
    match front a, front b with
    | some fa, some fb =>
      match getAt a (cmod (fa + i) a.capacity), getAt b (cmod (fb + i) b.capacity) with
      | some va, some vb =>
        if va ≠ vb then some false else eqLoop a b (i + 1) n
      | _, _ => none
    | _, _ => none

/-- `operator==(a, b)` : `false` when the sizes differ, else the comparison
loop above; `none` marks an out-of-bounds access (undefined behaviour). -/
def eqOp (a b : CircularBuffer Int) : Option Bool :=
  if a.size ≠ b.size then some false
  else eqLoop a b 0 a.size.toNat

/-- One mutating member-function call together with its arguments, used to
quantify over the operations in the failure-safety claim.  `setCap` carries
the allocation outcome of its internal `realloc` (see `set_capacity`). -/
inductive Op where
  | pushB (x : Int)
  | pushF (x : Int)
  | popB
  | popF
  | ins (pos : Int) (x : Int)
  | ers (first last : Int)
  | rot (k : Int)
  | setCap (nc : Int) (ok : Bool)
  | resz (ns : Int) (x : Int)
  | clr
  deriving DecidableEq, Repr

/-- Run one mutating member function on a buffer. -/
def applyOp : Op → CircularBuffer Int → CppRes (CircularBuffer Int)
  | .pushB x, cb => push_back x cb
  | .pushF x, cb => push_front x cb
  | .popB, cb => pop_back cb
  | .popF, cb => pop_front cb
  | .ins pos x, cb => insert pos x cb
  | .ers first last, cb => erase first last cb
  | .rot k, cb => rotate k cb
  | .setCap nc ok, cb => set_capacity nc ok cb
  | .resz ns x, cb => resize ns x cb
  | .clr, cb => .ok (clear cb)

/-- Whether the operation's internal allocation (only `set_capacity` has
one) succeeds. -/
def allocFlag : Op → Bool
  | .setCap _ ok => ok
  | _ => true

/-! Concrete buffer states used by the evaluations below.  Each one is
reachable through the constructor and the operations; the theorems record
the full construction chains. -/

/-- `CircularBuffer<int>(2)`. -/
def fresh2 : CircularBuffer Int := ⟨2, 0, #[0, 0], -1, -1⟩

/-- `CircularBuffer<int>(3)`. -/
def fresh3 : CircularBuffer Int := ⟨3, 0, #[0, 0, 0], -1, -1⟩

/-- `CircularBuffer<int>(4)`. -/
def fresh4 : CircularBuffer Int := ⟨4, 0, #[0, 0, 0, 0], -1, -1⟩

/-- `CircularBuffer<int>(5)`. -/
def fresh5 : CircularBuffer Int := ⟨5, 0, #[0, 0, 0, 0, 0], -1, -1⟩

/-- capacity 3 after `push_back(1)`. -/
def b31 : CircularBuffer Int := ⟨3, 1, #[1, 0, 0], 0, 0⟩

/-- capacity 3 after `push_back(1); push_back(2)`. -/
def b312 : CircularBuffer Int := ⟨3, 2, #[1, 2, 0], 0, 1⟩

/-- capacity 3 holding [2] after one further `pop_front()`. -/
def b32 : CircularBuffer Int := ⟨3, 1, #[1, 2, 0], 1, 1⟩

/-- capacity 3 emptied by a second `pop_front()`: `start` was advanced to 2
and only `end` was reset to `-1` by the comma expression. -/
def b3empty : CircularBuffer Int := ⟨3, 0, #[1, 2, 0], 2, -1⟩

/-- state after `push_front(7)` on `b3empty`: the item went to slot 1 but
`start` was reset to 0, so slot 0 (stale value 1) is the new front. -/
def b3pf : CircularBuffer Int := ⟨3, 1, #[1, 7, 0], 0, -1⟩

/-- capacity 3 after `push_back(1..3)` (full, linear). -/
def b3123 : CircularBuffer Int := ⟨3, 3, #[1, 2, 3], 0, 2⟩

/-- capacity 2 after `push_back(1)`. -/
def c2a1 : CircularBuffer Int := ⟨2, 1, #[1, 0], 0, 0⟩

/-- capacity 2 holding [1,2] (full). -/
def c2a : CircularBuffer Int := ⟨2, 2, #[1, 2], 0, 1⟩

/-- capacity 3 holding [7]. -/
def c2b : CircularBuffer Int := ⟨3, 1, #[7, 0, 0], 0, 0⟩

/-- what `c2a` looks like after `c2a.swap(c2b)`: only the storage moved. -/
def c2aAfter : CircularBuffer Int := ⟨2, 2, #[7, 0, 0], 0, 1⟩

/-- what `c2b` looks like after `c2a.swap(c2b)`: only the storage moved. -/
def c2bAfter : CircularBuffer Int := ⟨3, 1, #[1, 2], 0, 0⟩

/-- capacity 3 after `push_back(3)`. -/
def a31 : CircularBuffer Int := ⟨3, 1, #[3, 0, 0], 0, 0⟩

/-- capacity 3 after `push_back(3); push_back(9)`. -/
def a32 : CircularBuffer Int := ⟨3, 2, #[3, 9, 0], 0, 1⟩

/-- capacity 3 after `push_back(3); push_back(9); push_back(5)`. -/
def a33 : CircularBuffer Int := ⟨3, 3, #[3, 9, 5], 0, 2⟩

/-- capacity 3 holding [3,9] after `pop_back()`, dead slot 2 keeps 5. -/
def a3F : CircularBuffer Int := ⟨3, 2, #[3, 9, 5], 0, 1⟩

/-- capacity 4 after `push_back(3)`. -/
def b41 : CircularBuffer Int := ⟨4, 1, #[3, 0, 0, 0], 0, 0⟩

/-- capacity 4 after `push_back(3); push_back(9)`. -/
def b42 : CircularBuffer Int := ⟨4, 2, #[3, 9, 0, 0], 0, 1⟩

/-- capacity 4 after `push_back(3); push_back(9); push_back(5)`. -/
def b43 : CircularBuffer Int := ⟨4, 3, #[3, 9, 5, 0], 0, 2⟩

/-- capacity 4 full after `push_back(3); push_back(9); push_back(5); push_back(6)`. -/
def b44 : CircularBuffer Int := ⟨4, 4, #[3, 9, 5, 6], 0, 3⟩

/-- capacity 4 holding [3,9,5] after `pop_back()`. -/
def b43p : CircularBuffer Int := ⟨4, 3, #[3, 9, 5, 6], 0, 2⟩

/-- capacity 4 holding [3,9] after two `pop_back()`, dead slots keep 5,6. -/
def b4F : CircularBuffer Int := ⟨4, 2, #[3, 9, 5, 6], 0, 1⟩

/-- capacity 5 after `push_back(4)`. -/
def c7s : CircularBuffer Int := ⟨5, 1, #[4, 0, 0, 0, 0], 0, 0⟩

/-- `c7s` after `set_capacity(3)` whose `realloc` fails: `capacity` already
overwritten, storage pointer null, then the exception is thrown. -/
def c7t : CircularBuffer Int := ⟨3, 1, #[], 0, 0⟩

/-- C1: `push_back` and `push_front` are claimed to make the pushed item the
new back/front whenever the buffer is not full.  Evaluation of the code at
the failing input: a capacity-3 buffer is emptied again by
`push_back(1); push_back(2); pop_front(); pop_front()` (leaving
`start = 2`), and then `push_front(7)` stores 7 at slot
`(start - 1 + capacity) % capacity = 1` but afterwards resets `start` to 0
because the buffer was empty — so `front()` returns the stale value 1, not
the item 7 (the size does increase by 1). -/
theorem C1_push_front_front_mismatch :
    mkCB Int 3 = .ok fresh3 ∧
    push_back 1 fresh3 = .ok b31 ∧
    push_back 2 b31 = .ok b312 ∧
    pop_front b312 = .ok b32 ∧
    pop_front b32 = .ok b3empty ∧
    full b3empty = false ∧
    push_front 7 b3empty = .ok b3pf ∧
    b3pf.size = b3empty.size + 1 ∧
    front b3pf = some 1 ∧
    front b3pf ≠ some 7 := by
  decide

/-- C2: `swap` is claimed to exchange the entire state.  Evaluation of the
code: for `a` of capacity 2 holding [1,2] and `b` of capacity 3 holding
[7], `a.swap(b)` moves only the storage pointers, so afterwards `a` still
has capacity 2 and size 2 (instead of `b`'s former capacity 3, size 1) and
its logical sequence is not `b`'s former sequence. -/
theorem C2_swap_exchanges_only_storage :
    mkCB Int 2 = .ok fresh2 ∧
    push_back 1 fresh2 = .ok c2a1 ∧
    push_back 2 c2a1 = .ok c2a ∧
    mkCB Int 3 = .ok fresh3 ∧
    push_back 7 fresh3 = .ok c2b ∧
    swap c2a c2b = (c2aAfter, c2bAfter) ∧
    c2aAfter.capacity ≠ c2b.capacity ∧
    c2aAfter.size ≠ c2b.size ∧
    logicalSeq c2aAfter ≠ logicalSeq c2b := by
  decide

/-- C3: `front()`/`back()` are claimed to fail with the empty-buffer error
when `count == 0`.  Evaluation of the code at the failing input: on a
freshly constructed empty `CircularBuffer<int>(5)` the code performs no
emptiness check and reads `buffer[start]`/`buffer[end]` with
`start = end = -1` — an out-of-bounds read (undefined behaviour, `none` in
the model), not a `BufferEmpty` failure. -/
theorem C3_front_back_unchecked :
    mkCB Int 5 = .ok fresh5 ∧
    fresh5.size = 0 ∧
    front fresh5 = none ∧
    back fresh5 = none := by
  decide

/-- C4: `rotate(new_start)` is claimed to rotate the logical sequence left
by `new_start` positions.  Evaluation of the code at the failing input: on
the capacity-3 buffer holding [1,2,3], `rotate(1)` re-lays the elements in
their UNCHANGED logical order (the computed `distance` is never used), so
the sequence stays [1,2,3] instead of becoming [2,3,1]. -/
theorem C4_rotate_does_not_rotate :
    mkCB Int 3 = .ok fresh3 ∧
    push_back 1 fresh3 = .ok b31 ∧
    push_back 2 b31 = .ok b312 ∧
    push_back 3 b312 = .ok b3123 ∧
    rotate 1 b3123 = .ok b3123 ∧
    logicalSeq b3123 = [some 1, some 2, some 3] ∧
    logicalSeq b3123 ≠ [some 2, some 3, some 1] := by
  decide

/-- C5: `set_capacity(new_capacity)` is claimed to succeed for every
`new_capacity ≥ 0` (truncating when below `count`) and to fail exactly when
`new_capacity < 0`.  Evaluation of the code at the failing input: on a
capacity-3 buffer holding [1,2], `set_capacity(0)` throws `InvalidCapacity`
(the code rejects every `new_capacity <= 0`), leaving the buffer as it was,
instead of succeeding with a truncation to 0 elements. -/
theorem C5_set_capacity_rejects_zero :
    mkCB Int 3 = .ok fresh3 ∧
    push_back 1 fresh3 = .ok b31 ∧
    push_back 2 b31 = .ok b312 ∧
    set_capacity 0 true b312 = .thrown .InvalidCapacity b312 := by
  decide

/-- C6: `operator==` is claimed to hold iff the two buffers have the same
count and equal elements at every logical index, independently of
capacity.  Evaluation of the code at the failing input: `a` (capacity 3)
and `b` (capacity 4) both hold the logical sequence [3,9], yet the
comparison indexes with the FRONT ELEMENT'S VALUE modulo each buffer's own
capacity — `a[(a.front() + i) % a.get_capacity()]` — and so compares slot 0
of `a` (value 3) with dead slot 3 of `b` (leftover value 6), returning
`false`. -/
theorem C6_equality_depends_on_capacity :
    mkCB Int 3 = .ok fresh3 ∧
    push_back 3 fresh3 = .ok a31 ∧
    push_back 9 a31 = .ok a32 ∧
    push_back 5 a32 = .ok a33 ∧
    pop_back a33 = .ok a3F ∧
    mkCB Int 4 = .ok fresh4 ∧
    push_back 3 fresh4 = .ok b41 ∧
    push_back 9 b41 = .ok b42 ∧
    push_back 5 b42 = .ok b43 ∧
    push_back 6 b43 = .ok b44 ∧
    pop_back b44 = .ok b43p ∧
    pop_back b43p = .ok b4F ∧
    a3F.size = b4F.size ∧
    logicalSeq a3F = logicalSeq b4F ∧
    eqOp a3F b4F = some false := by
  decide

/-- C9: `insert(pos, x)` followed by `erase(pos, pos)` is claimed to
restore the original logical sequence for every non-full buffer and every
`0 ≤ pos ≤ count`.  Evaluation of the code at the failing input: on a
freshly constructed empty `CircularBuffer<int>(3)` (where `start = -1`),
`insert(0, 5)` passes both validation checks and then writes the item at
`buffer[(start + pos) % capacity] = buffer[-1]` — an out-of-bounds write
(undefined behaviour, `ub` in the model), so the round-trip guarantee
fails. -/
theorem C9_insert_on_fresh_empty_is_oob :
    mkCB Int 3 = .ok fresh3 ∧
    full fresh3 = false ∧
    insert 0 5 fresh3 = .ub := by
  decide

/-- A `push_back` that throws does so on the full-check, before any
mutation: the carried state is the input state. -/
theorem push_back_thrown_eq {x : Int} {cb s : CircularBuffer Int} {e : Err}
    (h : push_back x cb = .thrown e s) : s = cb ∧ cb.size = cb.capacity := by
  unfold push_back at h
  split at h
  · rename_i hc
    injection h with h1 h2
    exact ⟨h2.symm, hc⟩
  · split at h <;> simp at h

/-- A successful `push_back` increments `size` and keeps `capacity`. -/
theorem push_back_ok_facts {x : Int} {cb cb2 : CircularBuffer Int}
    (h : push_back x cb = .ok cb2) :
    cb2.size = cb.size + 1 ∧ cb2.capacity = cb.capacity := by
  unfold push_back at h
  split at h
  · simp at h
  · split at h
    · simp at h
    · injection h with h1
      rw [← h1]
      exact ⟨rfl, rfl⟩

/-- A `push_front` that throws does so on the full-check. -/
theorem push_front_thrown_eq {x : Int} {cb s : CircularBuffer Int} {e : Err}
    (h : push_front x cb = .thrown e s) : s = cb := by
  unfold push_front at h
  split at h
  · injection h with h1 h2
    exact h2.symm
  · split at h <;> simp at h

/-- A `pop_back` that throws does so on the empty-check. -/
theorem pop_back_thrown_eq {cb s : CircularBuffer Int} {e : Err}
    (h : pop_back cb = .thrown e s) : s = cb ∧ cb.size = 0 := by
  unfold pop_back at h
  split at h
  · rename_i hc
    injection h with h1 h2
    exact ⟨h2.symm, hc⟩
  · split at h <;> simp at h

/-- A successful `pop_back` decrements `size` and keeps `capacity`. -/
theorem pop_back_ok_facts {cb cb2 : CircularBuffer Int}
    (h : pop_back cb = .ok cb2) :
    cb2.size = cb.size - 1 ∧ cb2.capacity = cb.capacity := by
  unfold pop_back at h
  split at h
  · simp at h
  · split at h <;> (injection h with h1; rw [← h1]; exact ⟨rfl, rfl⟩)

/-- `pop_back` never performs a storage access, hence never undefined
behaviour. -/
theorem pop_back_ne_ub (cb : CircularBuffer Int) : pop_back cb ≠ .ub := by
  unfold pop_back
  split
  · simp
  · split <;> simp

/-- A `pop_front` that throws does so on the empty-check. -/
theorem pop_front_thrown_eq {cb s : CircularBuffer Int} {e : Err}
    (h : pop_front cb = .thrown e s) : s = cb := by
  unfold pop_front at h
  split at h
  · injection h with h1 h2
    exact h2.symm
  · split at h <;> simp at h

/-- An `insert` that throws does so on one of its two validation checks,
before the shifting loop runs. -/
theorem insert_thrown_eq {pos x : Int} {cb s : CircularBuffer Int} {e : Err}
    (h : insert pos x cb = .thrown e s) : s = cb := by
  unfold insert at h
  split at h
  · injection h with h1 h2
    exact h2.symm
  · split at h
    · injection h with h1 h2
      exact h2.symm
    · split at h
      · simp at h
      · split at h <;> simp at h

/-- An `erase` that throws does so on its range validation. -/
theorem erase_thrown_eq {first last : Int} {cb s : CircularBuffer Int} {e : Err}
    (h : erase first last cb = .thrown e s) : s = cb := by
  unfold erase at h
  split at h
  · injection h with h1 h2
    exact h2.symm
  · split at h <;> simp at h

/-- A `rotate` that throws does so on its index validation. -/
theorem rotate_thrown_eq {k : Int} {cb s : CircularBuffer Int} {e : Err}
    (h : rotate k cb = .thrown e s) : s = cb := by
  unfold rotate at h
  split at h
  · injection h with h1 h2
    exact h2.symm
  · split at h
    · simp at h
    · split at h <;> simp at h

/-- The growing loop of `resize` never throws while the capacity has room
for all remaining pushes. -/
theorem pushLoop_ne_thrown (x : Int) :
    ∀ (n : Nat) (cb : CircularBuffer Int), cb.size + (n : Int) ≤ cb.capacity →
      ∀ (e : Err) (s : CircularBuffer Int), pushLoop x n cb ≠ .thrown e s := by
  intro n
  induction n with
  | zero =>
    intro cb _ e s h
    exact absurd h (by simp [pushLoop])
  | succ n ih =>
    intro cb hle e s h
    unfold pushLoop at h
    cases hpb : push_back x cb with
    | ok cb2 =>
      rw [hpb] at h
      have hf := push_back_ok_facts hpb
      exact ih cb2 (by omega) e s h
    | thrown e2 s2 =>
      have hfull := (push_back_thrown_eq hpb).2
      omega
    | ub =>
      rw [hpb] at h
      exact absurd h (by simp)

/-- The shrinking loop of `resize` never throws while there are at least as
many elements as remaining pops. -/
theorem popLoop_ne_thrown :
    ∀ (n : Nat) (cb : CircularBuffer Int), (n : Int) ≤ cb.size →
      ∀ (e : Err) (s : CircularBuffer Int), popLoop n cb ≠ .thrown e s := by
  intro n
  induction n with
  | zero =>
    intro cb _ e s h
    exact absurd h (by simp [popLoop])
  | succ n ih =>
    intro cb hle e s h
    unfold popLoop at h
    cases hpb : pop_back cb with
    | ok cb2 =>
      rw [hpb] at h
      have hf := pop_back_ok_facts hpb
      exact ih cb2 (by omega) e s h
    | thrown e2 s2 =>
      have hempty := (pop_back_thrown_eq hpb).2
      omega
    | ub => exact absurd hpb (pop_back_ne_ub cb)

/-- A `resize` that throws does so on its size validation. -/
theorem resize_thrown_eq {ns x : Int} {cb s : CircularBuffer Int} {e : Err}
    (h : resize ns x cb = .thrown e s) : s = cb := by
  unfold resize at h
  by_cases h1 : ns < 0 ∨ ns > cb.capacity
  · rw [if_pos h1] at h
    injection h with h1 h2
    exact h2.symm
  · rw [if_neg h1] at h
    push_neg at h1
    by_cases h2 : cb.size < ns
    · rw [if_pos h2] at h
      refine absurd h (pushLoop_ne_thrown x _ cb ?_ e s)
      have ht : (((ns - cb.size).toNat : Nat) : Int) = ns - cb.size :=
        Int.toNat_of_nonneg (by omega)
      omega
    · rw [if_neg h2] at h
      by_cases h3 : ns < cb.size
      · rw [if_pos h3] at h
        refine absurd h (popLoop_ne_thrown _ cb ?_ e s)
        have ht : (((cb.size - ns).toNat : Nat) : Int) = cb.size - ns :=
          Int.toNat_of_nonneg (by omega)
        omega
      · rw [if_neg h3] at h
        simp at h

/-- A `set_capacity` whose allocation succeeds throws only on its capacity
validation. -/
theorem set_capacity_thrown_eq {nc : Int} {cb s : CircularBuffer Int} {e : Err}
    (h : set_capacity nc true cb = .thrown e s) : s = cb := by
  unfold set_capacity at h
  split at h
  · injection h with h1 h2
    exact h2.symm
  · simp at h

/-- C7 (amended): every failure raised by an operation's own validation
checks — `InvalidCapacity`, `InvalidSize`, `IndexOutOfRange`, `BufferFull`,
`BufferEmpty`, all tested before any mutation — leaves the buffer exactly
as it was (field-for-field, hence also capacity, count and every logical
element).  The amendment excludes the allocation-failure path of
`set_capacity` (hypothesis `allocFlag op = true`), which the unamended
claim does not survive: see the counterexample. -/
theorem C7_validation_failures_preserve_state (op : Op)
    (cb cb' : CircularBuffer Int) (e : Err)
    (halloc : allocFlag op = true)
    (h : applyOp op cb = .thrown e cb') : cb' = cb := by
  cases op with
  | pushB x => exact (push_back_thrown_eq h).1
  | pushF x => exact push_front_thrown_eq h
  | popB => exact (pop_back_thrown_eq h).1
  | popF => exact pop_front_thrown_eq h
  | ins pos x => exact insert_thrown_eq h
  | ers first last => exact erase_thrown_eq h
  | rot k => exact rotate_thrown_eq h
  | setCap nc ok =>
    have hok : ok = true := halloc
    subst hok
    exact set_capacity_thrown_eq h
  | resz ns x => exact resize_thrown_eq h
  | clr => simp [applyOp] at h

/-- Witness for C7 (amended): a concrete validation failure
(`pop_front` on the empty capacity-2 buffer throws `BufferEmpty`) to which
the theorem applies. -/
theorem C7_validation_failures_preserve_state_witness : fresh2 = fresh2 :=
  C7_validation_failures_preserve_state .popF fresh2 fresh2 .BufferEmpty
    (by decide) (by decide)

/-- C7 counterexample: the claim, as stated, covers every failing call.  On
the capacity-5 buffer holding [4], `set_capacity(3)` with a failing
`realloc` throws (`std::out_of_range`, the `IndexOutOfRange` kind) only
AFTER `capacity` has been overwritten with 3 and the storage pointer has
been nulled, so the observable state is not what it was before the call. -/
theorem C7_alloc_failure_mutates_state :
    mkCB Int 5 = .ok fresh5 ∧
    push_back 4 fresh5 = .ok c7s ∧
    set_capacity 3 false c7s = .thrown .IndexOutOfRange c7t ∧
    c7t.capacity ≠ c7s.capacity := by
  decide

/-- C8 counterexample: the claim says construction with capacity exactly 0
succeeds; the code throws `InvalidCapacity` (`std::invalid_argument
"Capacity must be greater than 0"`) for every capacity `<= 0`, including
0. -/
theorem C8_zero_capacity_rejected :
    mkCB Int 0 = .error .InvalidCapacity := by
  decide

/-- C8 (amended): construction with an explicit capacity fails with
`InvalidCapacity` exactly when `capacity ≤ 0` (capacity 0 is rejected, not
legal); on success the new buffer has `count = 0`, the requested capacity,
freshly allocated storage of that many slots, and the empty sentinels
`start = end = -1`. -/
theorem C8_ctor_rejects_nonpositive (c : Int) :
    (c ≤ 0 → mkCB Int c = .error .InvalidCapacity) ∧
    (0 < c → mkCB Int c = .ok ⟨c, 0, Array.mkArray c.toNat 0, -1, -1⟩) := by
  constructor
  · intro hc
    unfold mkCB
    rw [if_pos hc]
  · intro hc
    unfold mkCB
    rw [if_neg (by omega)]
    rfl

/-- Witness for C8 (amended): both branches instantiated, at capacity -3
(rejected) and capacity 2 (a fresh empty two-slot buffer). -/
theorem C8_ctor_rejects_nonpositive_witness :
    mkCB Int (-3) = .error .InvalidCapacity ∧
    mkCB Int 2 = .ok ⟨2, 0, Array.mkArray 2 0, -1, -1⟩ :=
  ⟨(C8_ctor_rejects_nonpositive (-3)).1 (by decide),
   (C8_ctor_rejects_nonpositive 2).2 (by decide)⟩

/-- C10: a default-constructed buffer has capacity 0 and count 0, is both
`empty()` and `full()`, has `reserve() == 0`, every push on it fails with
`BufferFull` and every pop with `BufferEmpty`; and the explicit-capacity
constructor rejects capacity 0, so it cannot produce such a buffer. -/
theorem C10_default_constructed_buffer :
    ∀ x : Int,
      (defaultCB Int).capacity = 0 ∧
      (defaultCB Int).size = 0 ∧
      get_capacity (defaultCB Int) = 0 ∧
      get_size (defaultCB Int) = 0 ∧
      empty (defaultCB Int) = true ∧
      full (defaultCB Int) = true ∧
      reserve (defaultCB Int) = 0 ∧
      push_back x (defaultCB Int) = .thrown .BufferFull (defaultCB Int) ∧
      push_front x (defaultCB Int) = .thrown .BufferFull (defaultCB Int) ∧
      pop_back (defaultCB Int) = .thrown .BufferEmpty (defaultCB Int) ∧
      pop_front (defaultCB Int) = .thrown .BufferEmpty (defaultCB Int) ∧
      mkCB Int 0 = .error .InvalidCapacity := by
  intro x
  exact ⟨rfl, rfl, rfl, rfl, rfl, rfl, rfl, rfl, rfl, rfl, rfl, rfl⟩

end CircularBuffer
